import Mathlib

/-!
Shallow embedding of the theme lifecycle subsystem of the nilorg/template
repository (theme.go, engine.go, model.go): mode detection, per-theme
validation, the theme registry (discover / load / switch / reload with
rollback), the file-watch reload classification, and the RenderSet
Execute operation.

Modelling conventions:
* The filesystem is a pure tree (`FSNode`); paths are lists of components.
  `os.ReadDir` enumerates a directory's entries in the order stored in the
  model (os.ReadDir returns a deterministic, sorted order; the model's
  entry list is taken to be that enumeration order).
* Go string paths are recovered with `pathToString` (components joined by
  a slash), which is where the engine's `strings.HasPrefix` comparisons
  happen, exactly as in engine.go.  `filepath.Abs` is the identity on the
  canonical paths used here.
* File contents are only ever read as JSON (`theme.json`), so a file holds
  `Option JVal`: `some j` means the bytes parse as the JSON value `j`,
  `none` means they do not parse.
* A compiled `*template.Template` pointer is `Option Nat` (`none` is a nil
  pointer); actual template execution is an external collaborator and is
  passed in as an `exec` environment where needed (model.go only calls it
  after a successful map lookup).
* Fallible Go functions returning `error` become `Option String`
  (`none` = nil error) or `Except ThemeError`; functions with receiver
  mutation become explicit state passing.
-/

/-- JSON values, the shape `encoding/json` can report to this program. -/
inductive JVal where
  | null
  | boolean (b : Bool)
  | num (n : Int)
  | str (s : String)
  | arr (elems : List JVal)
  | obj (fields : List (String × JVal))

/-- Pure filesystem tree: a node is a file (with its parse result) or a
directory with named entries. -/
inductive FSNode where
  | file (content : Option JVal)
  | dir (entries : List (String × FSNode))

/-- Lookup of a name among directory entries (directory names are unique
in a real filesystem; the first match is taken). -/
def findEntry : List (String × FSNode) → String → Option FSNode
  | [], _ => none
  | (k, v) :: rest, name => if k = name then some v else findEntry rest name

/-- Resolve a component path from a root node. -/
def FSNode.resolve : FSNode → List String → Option FSNode
  | node, [] => some node
  | FSNode.dir es, p :: ps =>
      match findEntry es p with
      | some child => child.resolve ps
      | none => none
  | FSNode.file _, _ :: _ => none

/-- Check whether a node is a directory. -/
def FSNode.isDir : FSNode → Bool
  | FSNode.dir _ => true
  | FSNode.file _ => false

/-- Model of `os.Stat` succeeding with `IsDir()` (theme.go dirExists). -/
def dirExists (root : FSNode) (path : List String) : Bool :=
  match root.resolve path with
  | some node => node.isDir
  | none => false

/-- Model of `os.ReadDir`: the entries of a directory, or failure. -/
def readDir (root : FSNode) (path : List String) : Option (List (String × FSNode)) :=
  match root.resolve path with
  | some (FSNode.dir es) => some es
  | _ => none

/-- Result of `os.ReadFile`: missing path, a non-file (read error that is
not IsNotExist), or file bytes together with their JSON parse result. -/
inductive ReadRes where
  | notExist
  | notFile
  | content (parsed : Option JVal)

/-- Model of `os.ReadFile` composed with the only uses the code makes of
the bytes (JSON parsing). -/
def readFile (root : FSNode) (path : List String) : ReadRes :=
  match root.resolve path with
  | none => ReadRes.notExist
  | some (FSNode.dir _) => ReadRes.notFile
  | some (FSNode.file c) => ReadRes.content c

/-- Model of `filepath.Base` on a component path. -/
def pathBase : List String → String
  | [] => "."
  | [x] => x
  | _ :: xs => pathBase xs

/-- Render a component path as the Go string path (components joined by a
slash), the form engine.go compares with `strings.HasPrefix`. -/
def pathToString (p : List String) : String :=
  String.intercalate "/" p

/-- Helper for `goExt`: scan characters keeping the suffix that starts at
the final dot, resetting at every path separator (as `filepath.Ext` does). -/
def goExtAux : List Char → Option String → String
  | [], acc => match acc with
      | some s => s
      | none => ""
  | c :: cs, acc =>
      if c = '.' then goExtAux cs (some ".")
      else if c = '/' then goExtAux cs none
      else goExtAux cs (match acc with
        | some s => some (s.push c)
        | none => none)

/-- Model of `filepath.Ext`. -/
def goExt (name : String) : String :=
  goExtAux name.data none

/-- Check that the first list is an initial segment of the second. -/
def listIsStartOf : List Char → List Char → Bool
  | [], _ => true
  | _ :: _, [] => false
  | a :: as, b :: bs => if a = b then listIsStartOf as bs else false

/-- Model of `strings.HasPrefix s pre`. -/
def strStartsWith (s pre : String) : Bool :=
  listIsStartOf pre.data s.data

/-- Helper for `strContains`: does the pattern start at any position? -/
def containsSegAux (pat : List Char) : List Char → Bool
  | [] => listIsStartOf pat []
  | c :: cs => listIsStartOf pat (c :: cs) || containsSegAux pat cs

/-- Model of `strings.Contains s pat`. -/
def strContains (s pat : String) : Bool :=
  containsSegAux pat.data s.data

/-- Association-list lookup (first match), modelling a Go map read. -/
def alookup {α : Type} : List (String × α) → String → Option α
  | [], _ => none
  | (k, v) :: rest, name => if k = name then some v else alookup rest name

/-- Association-list update-or-append, modelling a Go map write. -/
def aset {α : Type} : List (String × α) → String → α → List (String × α)
  | [], k, v => [(k, v)]
  | (k1, v1) :: rest, k, v =>
      if k1 = k then (k, v) :: rest else (k1, v1) :: aset rest k v

/-- A `*template.Template` pointer: `none` is a nil pointer, `some id`
an actual compiled template identified abstractly. -/
abbrev TmplRef := Option Nat

/-- model.go `Render`: `map[string]*template.Template`, as an association
list with unique keys. -/
abbrev Render := List (String × TmplRef)

/-- model.go `Render.Execute`: look the key up, report an error for a
missing key, otherwise run the found template.  Template execution is an
external collaborator, supplied as `exec` (taking the pointer, the chunks
already written to the writer, and the data value).  The function is pure:
it never modifies the render map. -/
def renderExecute (exec : TmplRef → List String → JVal → List String × Option String)
    (r : Render) (name : String) (wr : List String) (data : JVal) :
    List String × Option String :=
  match alookup r name with
  | none => (wr, some ("template " ++ name ++ " not exists"))
  | some t => exec t wr data

/-- theme.go `ThemeErrorType`. -/
inductive ThemeErrorType where
  | errThemeNotFound
  | errThemeInvalid
  | errThemeLoadFailed
  | errThemeSwitchFailed
  | errThemeConfigInvalid
  deriving DecidableEq, Repr

/-- theme.go `ThemeError`: every theme error carries its kind, the theme
name, a message and an optional wrapped cause (kept as its rendered text). -/
structure ThemeError where
  etype : ThemeErrorType
  theme : String
  message : String
  cause : Option String
  deriving DecidableEq, Repr

/-- theme.go `ThemeMetadata` (tags and custom are defaulted to empty by
the loaders, so only their decoded values are kept). -/
structure ThemeMetadata where
  displayName : String
  description : String
  version : String
  author : String
  tags : List String
  custom : List (String × JVal)

/-- theme.go `Theme`. -/
structure Theme where
  name : String
  path : List String
  isDefault : Bool
  isEmbedded : Bool
  metadata : ThemeMetadata

/-- theme.go `DiscoverMode`. -/
inductive DiscoverMode where
  | modeLegacy
  | modeMultiTheme
  | modeAuto
  deriving DecidableEq, Repr

/-- The four directories every theme must contain (theme.go requiredDirs). -/
def requiredDirs : List String := ["layouts", "pages", "singles", "errors"]

/-- theme.go `isTemplateFile`: extension allow-list. -/
def templateExts : List String := [".tmpl", ".html", ".gohtml", ".tpl"]

/-- theme.go `isTemplateFile` (same in engine.go): the file extension must
be in the fixed allow-list. -/
def isTemplateFile (filename : String) : Bool :=
  templateExts.contains (goExt filename)

/-- Loop body of theme.go `validateThemeStructure`: first missing required
directory produces the error. -/
def checkRequiredDirs (fs : FSNode) (themePath : List String) : List String → Option String
  | [] => none
  | d :: rest =>
      if dirExists fs (themePath ++ [d]) then checkRequiredDirs fs themePath rest
      else some ("required directory not found: " ++ d)

/-- theme.go `validateThemeStructure` (the optional partials check is a
no-op in the source). -/
def validateThemeStructure (fs : FSNode) (themePath : List String) : Option String :=
  checkRequiredDirs fs themePath requiredDirs

/-- theme.go `validateDirectoryHasTemplates`: the directory must contain a
template file directly or in exactly one level of subdirectory. -/
def validateDirectoryHasTemplates (fs : FSNode) (dirPath : List String) (dirName : String) :
    Option String :=
  match readDir fs dirPath with
  | none => some ("cannot read directory: " ++ dirName)
  | some entries =>
      let direct := entries.any (fun e => !e.2.isDir && isTemplateFile e.1)
      let nested := entries.any (fun e =>
        e.2.isDir &&
          (match readDir fs (dirPath ++ [e.1]) with
           | some subEntries => subEntries.any (fun se => !se.2.isDir && isTemplateFile se.1)
           | none => false))
      if direct || nested then none
      else some (dirName ++ " directory must contain at least one template file")

/-- theme.go `validatePagesDirectory`. -/
def validatePagesDirectory (fs : FSNode) (pagesPath : List String) : Option String :=
  match readDir fs pagesPath with
  | none => some "cannot read pages directory"
  | some entries =>
      let direct := entries.any (fun e => !e.2.isDir && isTemplateFile e.1)
      let nested := entries.any (fun e =>
        e.2.isDir &&
          (validateDirectoryHasTemplates fs (pagesPath ++ [e.1]) ("pages/" ++ e.1)).isNone)
      if direct || nested then none
      else some "pages directory must contain at least one template file"

/-- theme.go `validateRequiredTemplates`: layouts, pages, singles, errors,
in that order, first failure wins. -/
def validateRequiredTemplates (fs : FSNode) (themePath : List String) : Option String :=
  match validateDirectoryHasTemplates fs (themePath ++ ["layouts"]) "layouts" with
  | some e => some e
  | none =>
    match validatePagesDirectory fs (themePath ++ ["pages"]) with
    | some e => some e
    | none =>
      match validateDirectoryHasTemplates fs (themePath ++ ["singles"]) "singles" with
      | some e => some e
      | none => validateDirectoryHasTemplates fs (themePath ++ ["errors"]) "errors"

/-- JSON object field lookup; Go keeps the last occurrence of a duplicate
key, hence the reverse. -/
def objLookup (fields : List (String × JVal)) (key : String) : Option JVal :=
  alookup fields.reverse key

/-- What `json.Unmarshal` into `map[string]any` accepts as a top level: an
object, or null (leaving the map nil, read as empty). -/
def jsonAsObject : JVal → Option (List (String × JVal))
  | JVal.obj fields => some fields
  | JVal.null => some []
  | _ => none

/-- theme.go validateThemeConfig field check: present values must be
non-empty strings. -/
def checkStrField (v : Option JVal) (msg : String) : Option String :=
  match v with
  | none => none
  | some (JVal.str s) => if s = "" then some msg else none
  | some _ => some msg

/-- theme.go validateThemeConfig tags check: if present, an array whose
elements are all strings. -/
def validateTagsField : Option JVal → Option String
  | none => none
  | some (JVal.arr elems) =>
      if elems.all (fun t => match t with | JVal.str _ => true | _ => false) then none
      else some "tag must be a string"
  | some _ => some "tags must be an array of strings"

/-- theme.go `validateThemeConfig`: an absent theme.json is acceptable; a
present one must parse as an object with the optional field constraints. -/
def validateThemeConfig (fs : FSNode) (themePath : List String) : Option String :=
  match readFile fs (themePath ++ ["theme.json"]) with
  | ReadRes.notExist => none
  | ReadRes.notFile => some "cannot read theme.json"
  | ReadRes.content none => some "invalid JSON format in theme.json"
  | ReadRes.content (some j) =>
      match jsonAsObject j with
      | none => some "invalid JSON format in theme.json"
      | some config =>
          match checkStrField (objLookup config "name") "theme name must be a non-empty string" with
          | some e => some e
          | none =>
            match checkStrField (objLookup config "version")
                "theme version must be a non-empty string" with
            | some e => some e
            | none => validateTagsField (objLookup config "tags")

/-- theme.go `ValidateTheme`: structure, then required templates, then the
optional config file; `none` means the theme is valid. -/
def validateTheme (fs : FSNode) (themePath : List String) : Option ThemeError :=
  let themeName := pathBase themePath
  match validateThemeStructure fs themePath with
  | some e => some { etype := ThemeErrorType.errThemeInvalid, theme := themeName,
                     message := "invalid theme structure", cause := some e }
  | none =>
    match validateRequiredTemplates fs themePath with
    | some e => some { etype := ThemeErrorType.errThemeInvalid, theme := themeName,
                       message := "missing required templates", cause := some e }
    | none =>
      match validateThemeConfig fs themePath with
      | some e => some { etype := ThemeErrorType.errThemeConfigInvalid, theme := themeName,
                         message := "invalid theme configuration", cause := some e }
      | none => none

/-- theme.go `hasLegacyStructure`: the root itself directly contains the
four required directories. -/
def hasLegacyStructure (fs : FSNode) (baseDir : List String) : Bool :=
  requiredDirs.all (fun d => dirExists fs (baseDir ++ [d]))

/-- theme.go `hasThemeSubdirectories`: some child directory of the root
passes `ValidateTheme`; the read error is surfaced alongside. -/
def hasThemeSubdirectories (fs : FSNode) (baseDir : List String) : Bool × Option String :=
  match readDir fs baseDir with
  | none => (false, some "cannot read base directory")
  | some entries =>
      (entries.any (fun e => e.2.isDir && (validateTheme fs (baseDir ++ [e.1])).isNone), none)

/-- theme.go `detectModeFileSystem`. -/
def detectModeFileSystem (fs : FSNode) (baseDir : List String) : DiscoverMode × Option String :=
  let legacy := hasLegacyStructure fs baseDir
  match hasThemeSubdirectories fs baseDir with
  | (_, some e) => (DiscoverMode.modeLegacy, some e)
  | (subdirs, none) =>
      if legacy && !subdirs then (DiscoverMode.modeLegacy, none)
      else if subdirs then (DiscoverMode.modeMultiTheme, none)
      else (DiscoverMode.modeLegacy, none)

/-- Decoding of a JSON value into a Go string struct field: null and
absence leave the zero value, anything but a string is a type error. -/
def decodeStringField : Option JVal → Option String
  | none => some ""
  | some JVal.null => some ""
  | some (JVal.str s) => some s
  | some _ => none

/-- Decoding into the `Tags []string` field. -/
def decodeTagsField : Option JVal → Option (List String)
  | none => some []
  | some JVal.null => some []
  | some (JVal.arr elems) =>
      elems.foldr (fun t acc =>
        match t, acc with
        | JVal.str s, some l => some (s :: l)
        | _, _ => none) (some [])
  | some _ => none

/-- Decoding into the `Custom map[string]any` field. -/
def decodeCustomField : Option JVal → Option (List (String × JVal))
  | none => some []
  | some JVal.null => some []
  | some (JVal.obj fields) => some fields
  | some _ => none

/-- Model of `json.Unmarshal(data, &metadata)` for `ThemeMetadata`:
unknown keys are ignored, typed fields fail on a wrong-typed value. -/
def decodeMetadata (j : JVal) : Option ThemeMetadata :=
  match jsonAsObject j with
  | none => none
  | some fields =>
      match decodeStringField (objLookup fields "display_name"),
            decodeStringField (objLookup fields "description"),
            decodeStringField (objLookup fields "version"),
            decodeStringField (objLookup fields "author"),
            decodeTagsField (objLookup fields "tags"),
            decodeCustomField (objLookup fields "custom") with
      | some dn, some de, some v, some a, some t, some c =>
          some { displayName := dn, description := de, version := v,
                 author := a, tags := t, custom := c }
      | _, _, _, _, _, _ => none

/-- The defaulted metadata used when theme.json is absent (theme.go
LoadThemeMetadata). -/
def defaultMetadata (themePath : List String) : ThemeMetadata :=
  { displayName := pathBase themePath
    description := "Theme without metadata"
    version := "1.0.0"
    author := "Unknown"
    tags := []
    custom := [] }

/-- Field-level defaults applied after a successful unmarshal (theme.go
LoadThemeMetadata; nil tags and custom become empty, which the model's
list representation already is). -/
def applyMetadataDefaults (themePath : List String) (md : ThemeMetadata) : ThemeMetadata :=
  { md with
    displayName := if md.displayName = "" then pathBase themePath else md.displayName
    version := if md.version = "" then "1.0.0" else md.version }

/-- theme.go `LoadThemeMetadata`: any read failure yields the defaults; a
readable file must unmarshal into the metadata struct. -/
def loadThemeMetadata (fs : FSNode) (themePath : List String) : Except ThemeError ThemeMetadata :=
  match readFile fs (themePath ++ ["theme.json"]) with
  | ReadRes.notExist => Except.ok (defaultMetadata themePath)
  | ReadRes.notFile => Except.ok (defaultMetadata themePath)
  | ReadRes.content none =>
      Except.error { etype := ThemeErrorType.errThemeConfigInvalid, theme := pathBase themePath,
                     message := "invalid theme.json format", cause := some "unmarshal error" }
  | ReadRes.content (some j) =>
      match decodeMetadata j with
      | none =>
          Except.error { etype := ThemeErrorType.errThemeConfigInvalid, theme := pathBase themePath,
                         message := "invalid theme.json format", cause := some "unmarshal error" }
      | some md => Except.ok (applyMetadataDefaults themePath md)

/-- The injected template loader (theme.go LoadTemplateFunc as used by the
manager): from a theme root to the compiled Render, `none` modelling a nil
map returned by the loader.  The function-map argument is a fixed ambient
and is omitted. -/
abbrev Loader := List String → Option Render

/-- Mutable state of theme.go `DefaultThemeManager` (the injected
discovery root, loader and function map are ambient parameters of the
operations; only the filesystem, non-embedded backend is modelled). -/
@[ext]
structure TMState where
  themes : List (String × Theme)
  currentTheme : String
  defaultTheme : String
  render : Option Render

/-- theme.go `GetCurrentTheme`. -/
def getCurrentTheme (st : TMState) : String :=
  st.currentTheme

/-- theme.go `GetAvailableThemes` (the key set of the themes map). -/
def getAvailableThemes (st : TMState) : List String :=
  st.themes.map Prod.fst

/-- theme.go `ThemeExists`. -/
def themeExists (st : TMState) (name : String) : Bool :=
  (alookup st.themes name).isSome

/-- theme.go `GetRender`. -/
def getRender (st : TMState) : Option Render :=
  st.render

/-- theme.go `loadThemeTemplates`: clear the render (a fresh empty map),
run the injected loader, store its result, and fail on a nil or empty
render.  The loader is injected at construction and assumed present. -/
def loadThemeTemplates (load : Loader) (st : TMState) (theme : Theme) :
    TMState × Option String :=
  let st1 : TMState := { st with render := some [] }
  let newRender := load theme.path
  let st2 : TMState := { st1 with render := newRender }
  match newRender with
  | none => (st2, some ("failed to create render for theme " ++ theme.name))
  | some m =>
      if m.length = 0 then (st2, some ("render contains no templates for theme " ++ theme.name))
      else (st2, none)

/-- theme.go `LoadTheme`: look the theme up and rebuild the active render
for it; does not change the current theme name. -/
def loadTheme (load : Loader) (st : TMState) (name : String) :
    TMState × Except ThemeError Theme :=
  match alookup st.themes name with
  | none =>
      (st, Except.error { etype := ThemeErrorType.errThemeNotFound, theme := name,
                          message := "theme not found", cause := none })
  | some theme =>
      match loadThemeTemplates load st theme with
      | (st1, some msg) =>
          (st1, Except.error { etype := ThemeErrorType.errThemeLoadFailed, theme := name,
                               message := "failed to load theme templates", cause := some msg })
      | (st1, none) => (st1, Except.ok theme)

/-- theme.go `validateRenderTemplates` (the switch-time render check): the
render must be non-nil, non-empty and contain at least one non-nil
template. -/
def validateRenderTemplates (render : Option Render) : Option String :=
  match render with
  | none => some "render is nil"
  | some m =>
      if m.length = 0 then some "render contains no templates"
      else if m.any (fun kv => kv.2.isSome) then none
      else some "render contains no valid templates"

/-- Category-key predicates of theme.go `ValidateRenderIntegrity`. -/
def isPageKey (name : String) : Bool :=
  strContains name ":pages/"

/-- Single-page keys in theme.go `ValidateRenderIntegrity`. -/
def isSingleKey (name : String) : Bool :=
  strStartsWith name "singles/"

/-- Error-page keys in theme.go `ValidateRenderIntegrity`. -/
def isErrorKey (name : String) : Bool :=
  strStartsWith name "error/"

/-- theme.go `ValidateRenderIntegrity`: non-nil, non-empty, no nil
template, and at least one recognizable page / single / error key (the Go
switch ladder sets at most one flag per key; the final check only needs
the disjunction, which the `any` below computes). -/
def validateRenderIntegrity (render : Option Render) : Option String :=
  match render with
  | none => some "render is nil"
  | some m =>
      if m.length = 0 then some "render contains no templates"
      else if m.any (fun kv => kv.2 = none) then some "a template is nil"
      else if m.any (fun kv => isPageKey kv.1 || isSingleKey kv.1 || isErrorKey kv.1) then none
      else some "render contains no recognizable template types"

/-- theme.go `SwitchTheme`: unknown name fails fast; switching to the
current theme is a no-op; otherwise snapshot, load, validate, and either
commit the new name or restore the snapshot with a ThemeSwitchFailed. -/
def switchTheme (load : Loader) (st : TMState) (name : String) :
    TMState × Option ThemeError :=
  if !themeExists st name then
    (st, some { etype := ThemeErrorType.errThemeNotFound, theme := name,
                message := "theme not found", cause := none })
  else if st.currentTheme = name then (st, none)
  else
    let previousTheme := st.currentTheme
    let previousRender := st.render
    match loadTheme load st name with
    | (st1, Except.error e) =>
        ({ st1 with currentTheme := previousTheme, render := previousRender },
         some { etype := ThemeErrorType.errThemeSwitchFailed, theme := name,
                message := "failed to load new theme during switch", cause := some e.message })
    | (st1, Except.ok _) =>
        if st1.render.isNone then
          ({ st1 with currentTheme := previousTheme, render := previousRender },
           some { etype := ThemeErrorType.errThemeSwitchFailed, theme := name,
                  message := "theme switch failed: render is nil after loading", cause := none })
        else
          match validateRenderTemplates st1.render with
          | some msg =>
              ({ st1 with currentTheme := previousTheme, render := previousRender },
               some { etype := ThemeErrorType.errThemeSwitchFailed, theme := name,
                      message := "theme switch failed: invalid templates in new theme",
                      cause := some msg })
          | none => ({ st1 with currentTheme := name }, none)

/-- theme.go `ReloadCurrentTheme`: re-run `LoadTheme` on the current theme
name; no snapshot is taken and nothing is restored on failure. -/
def reloadCurrentTheme (load : Loader) (st : TMState) : TMState × Option ThemeError :=
  if st.currentTheme = "" then
    (st, some { etype := ThemeErrorType.errThemeLoadFailed, theme := "",
                message := "no current theme to reload", cause := none })
  else
    match loadTheme load st st.currentTheme with
    | (st1, Except.error e) => (st1, some e)
    | (st1, Except.ok _) => (st1, none)

/-- theme.go `discoverLegacyTheme`: the root itself becomes the single
theme named default, which is eagerly loaded. -/
def discoverLegacyTheme (fs : FSNode) (load : Loader) (baseDir : List String)
    (st : TMState) : TMState × Option ThemeError :=
  match validateTheme fs baseDir with
  | some e =>
      (st, some { etype := ThemeErrorType.errThemeInvalid, theme := "default",
                  message := "invalid legacy theme structure", cause := some e.message })
  | none =>
      match loadThemeMetadata fs baseDir with
      | Except.error e => (st, some e)
      | Except.ok md =>
          let theme : Theme := { name := "default", path := baseDir, isDefault := true,
                                 isEmbedded := false, metadata := md }
          let st1 := { st with themes := aset st.themes "default" theme,
                               currentTheme := "default", defaultTheme := "default" }
          match loadTheme load st1 "default" with
          | (st2, Except.error e) =>
              (st2, some { etype := ThemeErrorType.errThemeLoadFailed, theme := "default",
                           message := "failed to load legacy theme during discovery",
                           cause := some e.message })
          | (st2, Except.ok _) => (st2, none)

/-- Loop of theme.go `discoverMultipleThemes` over the root's entries,
carrying the registry state and the count of themes registered so far:
non-directories and candidates failing `ValidateTheme` are skipped, a
metadata failure aborts with its error, the first registered theme
becomes default and current and is eagerly loaded. -/
def discoverLoop (fs : FSNode) (load : Loader) (basePath : List String) :
    List (String × FSNode) → TMState → Nat → TMState × Option ThemeError
  | [], st, found =>
      if found = 0 then
        (st, some { etype := ThemeErrorType.errThemeNotFound, theme := "",
                    message := "no valid themes found in multi-theme directory", cause := none })
      else (st, none)
  | (entryName, node) :: rest, st, found =>
      if !node.isDir then discoverLoop fs load basePath rest st found
      else
        let themePath := basePath ++ [entryName]
        if (validateTheme fs themePath).isSome then discoverLoop fs load basePath rest st found
        else
          match loadThemeMetadata fs themePath with
          | Except.error e => (st, some e)
          | Except.ok md =>
              let theme : Theme := { name := entryName, path := themePath,
                                     isDefault := found = 0, isEmbedded := false, metadata := md }
              let st1 := { st with themes := aset st.themes entryName theme }
              if found + 1 = 1 then
                let st2 := { st1 with defaultTheme := entryName, currentTheme := entryName }
                match loadTheme load st2 entryName with
                | (st3, Except.error e) =>
                    (st3, some { etype := ThemeErrorType.errThemeLoadFailed, theme := entryName,
                                 message := "failed to load initial theme during discovery",
                                 cause := some e.message })
                | (st3, Except.ok _) => discoverLoop fs load basePath rest st3 (found + 1)
              else discoverLoop fs load basePath rest st1 (found + 1)

/-- theme.go `discoverMultipleThemes`. -/
def discoverMultipleThemes (fs : FSNode) (load : Loader) (baseDir : List String)
    (st : TMState) : TMState × Option ThemeError :=
  match readDir fs baseDir with
  | none =>
      (st, some { etype := ThemeErrorType.errThemeLoadFailed, theme := "",
                  message := "failed to read theme directory", cause := none })
  | some entries => discoverLoop fs load baseDir entries st 0

/-- theme.go `DiscoverThemes`: detect the mode, clear the themes map, and
dispatch on the detected mode. -/
def discoverThemes (fs : FSNode) (load : Loader) (baseDir : List String)
    (st : TMState) : TMState × Option ThemeError :=
  match detectModeFileSystem fs baseDir with
  | (_, some e) =>
      (st, some { etype := ThemeErrorType.errThemeLoadFailed, theme := "",
                  message := "failed to detect theme mode", cause := some e })
  | (mode, none) =>
      let st1 := { st with themes := [] }
      match mode with
      | DiscoverMode.modeLegacy => discoverLegacyTheme fs load baseDir st1
      | DiscoverMode.modeMultiTheme => discoverMultipleThemes fs load baseDir st1
      | DiscoverMode.modeAuto =>
          (st1, some { etype := ThemeErrorType.errThemeLoadFailed, theme := "",
                       message := "unsupported theme mode", cause := none })

/-- Mutable state of engine.go `Engine`: the watcher is abstracted to its
presence and the root it is currently rooted at; the loader functions are
ambient parameters of the operations. -/
structure EngineState where
  templatesDir : List String
  embedded : Bool
  hasWatcher : Bool
  watchRoot : Option (List String)
  tm : Option TMState
  currentTheme : String
  multiThemeMode : Bool
  htmlRender : Option Render

/-- engine.go `GetCurrentTheme`. -/
def engineGetCurrentTheme (en : EngineState) : String :=
  match en.tm with
  | none => "default"
  | some tm => tm.currentTheme

/-- engine.go `getWatchDirectory`: with a theme manager and a current
theme, `LoadTheme` the current theme (a real side effect on the manager,
threaded here) and use its path when it is a non-embedded existing
directory; otherwise fall back to the base templates directory. -/
def engineGetWatchDirectory (fs : FSNode) (load : Loader) (en : EngineState) :
    EngineState × List String :=
  match en.tm with
  | some tm =>
      if en.currentTheme = "" then (en, en.templatesDir)
      else
        match loadTheme load tm en.currentTheme with
        | (tm1, Except.ok theme) =>
            let en1 := { en with tm := some tm1 }
            if !theme.isEmbedded && !theme.path.isEmpty && dirExists fs theme.path then
              (en1, theme.path)
            else (en1, en.templatesDir)
        | (tm1, Except.error _) => ({ en with tm := some tm1 }, en.templatesDir)
  | none => (en, en.templatesDir)

/-- engine.go `isFileInCurrentTheme`: without a manager or current theme,
a plain string-prefix check against the templates directory; otherwise a
string-prefix check of the absolute file path against the absolute watch
directory (`filepath.Abs` is the identity on the model's canonical
paths). -/
def engineIsFileInCurrentTheme (fs : FSNode) (load : Loader) (en : EngineState)
    (filePath : List String) : Bool :=
  match en.tm with
  | none => strStartsWith (pathToString filePath) (pathToString en.templatesDir)
  | some _ =>
      if en.currentTheme = "" then
        strStartsWith (pathToString filePath) (pathToString en.templatesDir)
      else
        let currentThemePath := (engineGetWatchDirectory fs load en).2
        if (pathToString currentThemePath) = "" then false
        else strStartsWith (pathToString filePath) (pathToString currentThemePath)

/-- engine.go `shouldReloadForFile`: the file must belong to the current
theme and carry a template extension. -/
def engineShouldReloadForFile (fs : FSNode) (load : Loader) (en : EngineState)
    (filePath : List String) : Bool :=
  engineIsFileInCurrentTheme fs load en filePath && isTemplateFile (pathToString filePath)

/-- Watch backend event kinds (fsnotify op). -/
inductive FileOp where
  | create
  | write
  | remove
  | rename
  | chmod
  deriving DecidableEq, Repr

/-- A filesystem event as delivered to engine.go `handleFileEvent`. -/
structure FileEvent where
  op : FileOp
  name : List String

/-- The reload decision of engine.go `handleFileEvent` (the watcher
add/remove side effects on directories do not influence this boolean and
are not modelled here): create consults `os.Stat` and skips directories
and vanished paths; write, remove and rename go through
`shouldReloadForFile`; chmod never reloads. -/
def handleFileEventReload (fs : FSNode) (load : Loader) (en : EngineState)
    (ev : FileEvent) : Bool :=
  match ev.op with
  | FileOp.create =>
      match fs.resolve ev.name with
      | some node =>
          if node.isDir then false else engineShouldReloadForFile fs load en ev.name
      | none => false
  | FileOp.write => engineShouldReloadForFile fs load en ev.name
  | FileOp.remove => engineShouldReloadForFile fs load en ev.name
  | FileOp.rename => engineShouldReloadForFile fs load en ev.name
  | FileOp.chmod => false

/-- engine.go `validateWatchDirectory`. -/
def validateWatchDirectory (fs : FSNode) (dir : List String) : Option String :=
  if (pathToString dir) = "" then some "watch directory is empty"
  else
    match fs.resolve dir with
    | none => some "watch directory does not exist"
    | some node => if node.isDir then none else some "watch path is not a directory"

/-- engine.go `setupWatching` (watch-tree effects abstracted to re-rooting
the watch at the computed directory when it validates). -/
def engineSetupWatching (fs : FSNode) (load : Loader) (en : EngineState) :
    EngineState × Option String :=
  let p := engineGetWatchDirectory fs load en
  match validateWatchDirectory fs p.2 with
  | some e => (p.1, some e)
  | none => ({ p.1 with watchRoot := some p.2 }, none)

/-- engine.go `updateWatcher`: recreate the watcher and re-run
`setupWatching`. -/
def engineUpdateWatcher (fs : FSNode) (load : Loader) (en : EngineState) :
    EngineState × Option String :=
  if !en.hasWatcher then (en, none)
  else if en.embedded then (en, none)
  else engineSetupWatching fs load { en with watchRoot := none }

/-- engine.go `updateWatcherForTheme`. -/
def engineUpdateWatcherForTheme (fs : FSNode) (load : Loader) (en : EngineState) :
    EngineState × Option String :=
  if !en.hasWatcher then (en, none)
  else if en.embedded then (en, none)
  else
    let p := engineGetWatchDirectory fs load en
    match validateWatchDirectory fs p.2 with
    | some e => (p.1, some e)
    | none => engineUpdateWatcher fs load p.1

/-- engine.go `SwitchTheme` (the facade): delegate to the registry; on
registry success update the engine's current theme and render, then try to
re-root the watcher, discarding any re-rooting error. -/
def engineSwitchTheme (fs : FSNode) (load : Loader) (en : EngineState)
    (themeName : String) : EngineState × Option ThemeError :=
  match en.tm with
  | none =>
      (en, some { etype := ThemeErrorType.errThemeSwitchFailed, theme := themeName,
                  message := "theme manager not available in legacy mode", cause := none })
  | some tm =>
      match switchTheme load tm themeName with
      | (tm1, some e) => ({ en with tm := some tm1 }, some e)
      | (tm1, none) =>
          let en1 := { en with tm := some tm1, currentTheme := tm1.currentTheme }
          let en2 := match tm1.render with
            | some _ => { en1 with htmlRender := tm1.render }
            | none => en1
          let en3 :=
            if en2.hasWatcher && !en2.embedded then
              (engineUpdateWatcherForTheme fs load en2).1
            else en2
          (en3, none)

/-- Claim-side predicate (spec wording): the child directories of the
root that pass `ValidateTheme`, in enumeration order. -/
def survivorNames (fs : FSNode) (basePath : List String)
    (entries : List (String × FSNode)) : List String :=
  (entries.filter
    (fun e => e.2.isDir && (validateTheme fs (basePath ++ [e.1])).isNone)).map Prod.fst

/-- Claim-side predicate (spec wording): does the root have at least one
child directory that independently passes `ValidateTheme`? -/
def existsValidChildDir (fs : FSNode) (baseDir : List String) : Bool :=
  match readDir fs baseDir with
  | none => false
  | some entries =>
      entries.any (fun e => e.2.isDir && (validateTheme fs (baseDir ++ [e.1])).isNone)

/-- Claim-side predicate: on success, the registered theme names are
exactly the surviving candidates. -/
def discoverySuccessNamesOk (fs : FSNode) (basePath : List String)
    (entries : List (String × FSNode)) : TMState × Option ThemeError → Prop
  | (st, none) => st.themes.map Prod.fst = survivorNames fs basePath entries
  | (_, some _) => True

/-- Claim-side predicate: a discovery error is ThemeNotFound (exactly when
no candidate survived), a load failure, or a metadata (config) failure. -/
def discoveryErrorClassOk (survivors : List String) : Option ThemeError → Prop
  | none => True
  | some e =>
      (e.etype = ThemeErrorType.errThemeNotFound ∧ survivors = [])
      ∨ e.etype = ThemeErrorType.errThemeLoadFailed
      ∨ e.etype = ThemeErrorType.errThemeConfigInvalid

/-- Claim-side predicate (spec wording): the validation result is a
ThemeInvalid error whose theme field is the directory base name and whose
message is non-empty. -/
def themeInvalidShapeOk (themePath : List String) : Option ThemeError → Prop
  | some e =>
      e.etype = ThemeErrorType.errThemeInvalid ∧ e.theme = pathBase themePath ∧ e.message ≠ ""
  | none => False

/-- Concrete fixture: an unparsed template file. -/
def sampleFile : FSNode := FSNode.file none

/-- Concrete fixture: a directory satisfying the full theme contract. -/
def validThemeDir : FSNode := FSNode.dir
  [("layouts", FSNode.dir [("layout.tmpl", sampleFile)]),
   ("pages", FSNode.dir [("home.tmpl", sampleFile)]),
   ("singles", FSNode.dir [("about.tmpl", sampleFile)]),
   ("errors", FSNode.dir [("404.tmpl", sampleFile)])]

/-- Concrete fixture: a render with one page-category template. -/
def goodRender : Render := [("layout.tmpl:pages/home.tmpl", some 1)]

/-- Concrete fixture: registered theme a. -/
def themeA : Theme :=
  { name := "a", path := ["tpl", "a"], isDefault := true, isEmbedded := false,
    metadata := defaultMetadata ["tpl", "a"] }

/-- Concrete fixture: registered theme b. -/
def themeB : Theme :=
  { name := "b", path := ["tpl", "b"], isDefault := false, isEmbedded := false,
    metadata := defaultMetadata ["tpl", "b"] }

/-- Concrete fixture: a discovered registry holding themes a and b with a
current. -/
def registryAB : TMState :=
  { themes := [("a", themeA), ("b", themeB)], currentTheme := "a", defaultTheme := "a",
    render := some goodRender }

/-- Concrete fixture: a discovered registry holding only theme a. -/
def registryA : TMState :=
  { themes := [("a", themeA)], currentTheme := "a", defaultTheme := "a",
    render := some goodRender }

/-- Concrete fixture: a loader whose render for theme b has no key of any
page, single or error category. -/
def loaderMisc : Loader :=
  fun p => if p = ["tpl", "b"] then some [("misc/x.tmpl", some 2)] else some goodRender

/-- Concrete fixture: a loader producing a render whose only template
pointer is nil. -/
def loaderAllNil : Loader :=
  fun _ => some [("k", (none : TmplRef))]

/-- Concrete fixture: a loader that always fails (returns a nil map). -/
def loaderNil : Loader := fun _ => none

/-- Concrete fixture: a loader that always produces the good render. -/
def loaderGood : Loader := fun _ => some goodRender

/-- Concrete fixture: a multi-theme root whose second candidate passes
`ValidateTheme` but carries a theme.json that does not unmarshal into the
metadata struct (display_name is a number). -/
def fsMetaBad : FSNode := FSNode.dir
  [("tpl", FSNode.dir
    [("alpha", validThemeDir),
     ("beta", FSNode.dir
       [("layouts", FSNode.dir [("layout.tmpl", sampleFile)]),
        ("pages", FSNode.dir [("home.tmpl", sampleFile)]),
        ("singles", FSNode.dir [("about.tmpl", sampleFile)]),
        ("errors", FSNode.dir [("404.tmpl", sampleFile)]),
        ("theme.json", FSNode.file (some (JVal.obj [("display_name", JVal.num 5)])))])])]

/-- Concrete fixture: a loader for the fsMetaBad root. -/
def loaderAlpha : Loader :=
  fun p => if p = ["tpl", "alpha"] then some goodRender else none

/-- Concrete fixture: an empty registry state prior to discovery. -/
def emptyRegistry : TMState :=
  { themes := [], currentTheme := "", defaultTheme := "", render := some [] }

/-- Concrete fixture: a multi-theme root holding themes dark and darkish,
whose names make one path a string extension of the other. -/
def fsDark : FSNode := FSNode.dir
  [("tpl", FSNode.dir [("dark", validThemeDir), ("darkish", validThemeDir)])]

/-- Concrete fixture: the theme dark of the fsDark root. -/
def themeDark : Theme :=
  { name := "dark", path := ["tpl", "dark"], isDefault := true, isEmbedded := false,
    metadata := defaultMetadata ["tpl", "dark"] }

/-- Concrete fixture: the theme darkish of the fsDark root. -/
def themeDarkish : Theme :=
  { name := "darkish", path := ["tpl", "darkish"], isDefault := false, isEmbedded := false,
    metadata := defaultMetadata ["tpl", "darkish"] }

/-- Concrete fixture: a registry with dark active and darkish inactive. -/
def registryDark : TMState :=
  { themes := [("dark", themeDark), ("darkish", themeDarkish)], currentTheme := "dark",
    defaultTheme := "dark", render := some goodRender }

/-- Concrete fixture: the engine with active theme dark and a live
watcher. -/
def engineDark : EngineState :=
  { templatesDir := ["tpl"], embedded := false, hasWatcher := true,
    watchRoot := some ["tpl", "dark"], tm := some registryDark, currentTheme := "dark",
    multiThemeMode := true, htmlRender := some goodRender }

/-- Helper: `loadThemeTemplates` always stores exactly what the loader
produced as the new render and changes nothing else. -/
theorem loadThemeTemplates_fst (load : Loader) (st : TMState) (theme : Theme) :
    (loadThemeTemplates load st theme).1 = { st with render := load theme.path } := by
  unfold loadThemeTemplates
  cases h : load theme.path
  · simp [h]
  · simp [h]
    split <;> rfl

/-- Helper: `LoadTheme` never changes the themes map. -/
theorem loadTheme_themes (load : Loader) (st : TMState) (name : String) :
    (loadTheme load st name).1.themes = st.themes := by
  unfold loadTheme
  split
  · rfl
  · rename_i theme _
    rcases hp : loadThemeTemplates load st theme with ⟨st1, msg⟩
    have hfst := loadThemeTemplates_fst load st theme
    rw [hp] at hfst
    simp at hfst
    cases msg <;> simp [hfst]

/-- Helper: `LoadTheme` never changes the current theme name. -/
theorem loadTheme_current (load : Loader) (st : TMState) (name : String) :
    (loadTheme load st name).1.currentTheme = st.currentTheme := by
  unfold loadTheme
  split
  · rfl
  · rename_i theme _
    rcases hp : loadThemeTemplates load st theme with ⟨st1, msg⟩
    have hfst := loadThemeTemplates_fst load st theme
    rw [hp] at hfst
    simp at hfst
    cases msg <;> simp [hfst]

/-- Helper: `LoadTheme` never changes the default theme name. -/
theorem loadTheme_default (load : Loader) (st : TMState) (name : String) :
    (loadTheme load st name).1.defaultTheme = st.defaultTheme := by
  unfold loadTheme
  split
  · rfl
  · rename_i theme _
    rcases hp : loadThemeTemplates load st theme with ⟨st1, msg⟩
    have hfst := loadThemeTemplates_fst load st theme
    rw [hp] at hfst
    simp at hfst
    cases msg <;> simp [hfst]

/-- Helper: a failed `SwitchTheme` leaves the whole registry state exactly
as it was (rollback restores the snapshot, and `LoadTheme` only ever
touched the render). -/
theorem switchTheme_fail_state (load : Loader) (st : TMState) (name : String)
    (h : (switchTheme load st name).2.isSome = true) :
    (switchTheme load st name).1 = st := by
  unfold switchTheme at h ⊢
  by_cases hex : themeExists st name
  · simp only [hex, Bool.not_true] at h ⊢
    by_cases hcur : st.currentTheme = name
    · simp [hcur] at h
    · simp only [hcur, if_false, if_true, Bool.false_eq_true] at h ⊢
      rcases hp : loadTheme load st name with ⟨st1, r⟩
      have hth := loadTheme_themes load st name
      have hdf := loadTheme_default load st name
      rw [hp] at hth hdf h
      simp only [] at hth hdf
      cases r with
      | error e => exact TMState.ext hth rfl hdf rfl
      | ok t =>
          by_cases hr : st1.render.isNone
          · simp only [hr, if_true]
            exact TMState.ext hth rfl hdf rfl
          · simp only [hr] at h ⊢
            cases hv : validateRenderTemplates st1.render with
            | some msg =>
                simp only [hv, Bool.false_eq_true, if_false] at h ⊢
                exact TMState.ext hth rfl hdf rfl
            | none =>
                simp [hv, Bool.false_eq_true, if_false] at h
  · simp [hex]

/-- Helper: a successful `SwitchTheme` always ends with the requested name
as the current theme (either the no-op branch, where it already was, or
the commit). -/
theorem switchTheme_success_current (load : Loader) (st : TMState) (name : String)
    (h : (switchTheme load st name).2 = none) :
    (switchTheme load st name).1.currentTheme = name := by
  unfold switchTheme at h ⊢
  by_cases hex : themeExists st name
  · simp only [hex, Bool.not_true] at h ⊢
    by_cases hcur : st.currentTheme = name
    · simp [hcur]
    · simp only [hcur, if_false, if_true, Bool.false_eq_true] at h ⊢
      rcases hp : loadTheme load st name with ⟨st1, r⟩
      rw [hp] at h
      cases r with
      | error e => simp at h
      | ok t =>
          cases hv : validateRenderTemplates st1.render with
          | some msg =>
              by_cases hr : st1.render.isNone
              · simp [hr] at h
              · simp [hr, hv] at h
          | none =>
              by_cases hr : st1.render.isNone
              · simp [hr] at h
              · simp [hr, hv]
  · simp [hex] at h

/-- Helper: exact characterization of `LoadTheme` on a registered name:
the active render becomes exactly what the loader produced, and the result
is an error precisely for a nil or empty loader result. -/
theorem loadTheme_spec (load : Loader) (st : TMState) (name : String) (theme : Theme)
    (h : alookup st.themes name = some theme) :
    loadTheme load st name =
      ({ st with render := load theme.path },
       match load theme.path with
       | none =>
           Except.error { etype := ThemeErrorType.errThemeLoadFailed, theme := name,
                          message := "failed to load theme templates",
                          cause := some ("failed to create render for theme " ++ theme.name) }
       | some m =>
           if m.length = 0 then
             Except.error { etype := ThemeErrorType.errThemeLoadFailed, theme := name,
                            message := "failed to load theme templates",
                            cause := some ("render contains no templates for theme " ++ theme.name) }
           else Except.ok theme) := by
  unfold loadTheme loadThemeTemplates
  rw [h]
  cases hl : load theme.path with
  | none => simp [hl]
  | some m =>
      by_cases hm : m.length = 0
      · simp [hl, hm]
      · simp [hl, hm]

/-- Helper: appending a fresh key does not make an absent key found. -/
theorem alookup_append_none {α : Type} (l : List (String × α)) (k n : String) (v : α)
    (hl : alookup l n = none) (hk : n ≠ k) : alookup (l ++ [(k, v)]) n = none := by
  induction l with
  | nil =>
      have hkn : ¬ k = n := fun h => hk h.symm
      simp [alookup, hkn]
  | cons hd rest ih =>
      rcases hd with ⟨k1, v1⟩
      simp only [List.cons_append, alookup] at hl ⊢
      by_cases h1 : k1 = n
      · simp [h1] at hl
      · simp only [h1, if_false] at hl ⊢
        exact ih hl

/-- Helper: a Go map write of an absent key appends the binding. -/
theorem aset_append {α : Type} (l : List (String × α)) (k : String) (v : α)
    (h : alookup l k = none) : aset l k v = l ++ [(k, v)] := by
  induction l with
  | nil => rfl
  | cons hd rest ih =>
      rcases hd with ⟨k1, v1⟩
      simp only [alookup] at h
      by_cases h1 : k1 = k
      · simp [h1] at h
      · simp only [aset, h1, if_false]
        rw [ih (by simpa [h1] using h)]
        simp

/-- Helper: every `LoadThemeMetadata` error is a config-invalid error. -/
theorem loadThemeMetadata_error_etype (fs : FSNode) (p : List String) (e : ThemeError)
    (h : loadThemeMetadata fs p = Except.error e) :
    e.etype = ThemeErrorType.errThemeConfigInvalid := by
  unfold loadThemeMetadata at h
  split at h
  · simp at h
  · simp at h
  · simp only [Except.error.injEq] at h
    rw [← h]
  · split at h
    · simp only [Except.error.injEq] at h
      rw [← h]
    · simp at h

/-- Helper: how `survivorNames` unfolds on a cons cell. -/
theorem survivorNames_cons (fs : FSNode) (basePath : List String)
    (n : String) (node : FSNode) (rest : List (String × FSNode)) :
    survivorNames fs basePath ((n, node) :: rest) =
      if node.isDir && (validateTheme fs (basePath ++ [n])).isNone
      then n :: survivorNames fs basePath rest
      else survivorNames fs basePath rest := by
  unfold survivorNames
  by_cases hc : (node.isDir && (validateTheme fs (basePath ++ [n])).isNone) = true
  · simp [List.filter, hc]
  · simp only [Bool.not_eq_true] at hc
    simp [List.filter, hc]

/-- Helper: classification of every error the multi-theme discovery loop
can produce; a ThemeNotFound can only come out of a loop that started with
a zero count and found no survivor. -/
theorem discoverLoop_error_classes (fs : FSNode) (load : Loader) (basePath : List String) :
    ∀ (entries : List (String × FSNode)) (st : TMState) (found : Nat) (e : ThemeError),
      (discoverLoop fs load basePath entries st found).2 = some e →
      (e.etype = ThemeErrorType.errThemeNotFound ∧ found = 0
        ∧ survivorNames fs basePath entries = [])
      ∨ e.etype = ThemeErrorType.errThemeLoadFailed
      ∨ e.etype = ThemeErrorType.errThemeConfigInvalid := by
  intro entries
  induction entries with
  | nil =>
      intro st found e h
      unfold discoverLoop at h
      by_cases hf : found = 0
      · subst hf
        simp at h
        left
        exact ⟨by rw [← h], rfl, rfl⟩
      · simp [hf] at h
  | cons hd rest ih =>
      intro st found e h
      rcases hd with ⟨entryName, node⟩
      unfold discoverLoop at h
      by_cases hdir : node.isDir
      · simp only [hdir, Bool.not_true, Bool.false_eq_true, if_false] at h
        by_cases hval : (validateTheme fs (basePath ++ [entryName])).isSome
        · simp only [hval, if_true] at h
          rcases ih st found e h with ⟨h1, h2, h3⟩ | h1 | h1
          · left
            refine ⟨h1, h2, ?_⟩
            rw [survivorNames_cons]
            have : (validateTheme fs (basePath ++ [entryName])).isNone = false := by
              simp [Option.isNone_iff_eq_none]
              simpa [Option.isSome_iff_exists] using hval
            simp [this, h3]
          · right; left; exact h1
          · right; right; exact h1
        · simp only [hval, Bool.false_eq_true, if_false] at h
          cases hmd : loadThemeMetadata fs (basePath ++ [entryName]) with
          | error emd =>
              rw [hmd] at h
              simp at h
              right; right
              rw [← h]
              exact loadThemeMetadata_error_etype fs (basePath ++ [entryName]) emd hmd
          | ok md =>
              rw [hmd] at h
              simp only [] at h
              by_cases hone : found + 1 = 1
              · simp only [hone, if_true] at h
                rcases hp : loadTheme load
                    { st with
                      themes := aset st.themes entryName
                        { name := entryName, path := basePath ++ [entryName],
                          isDefault := found = 0, isEmbedded := false, metadata := md },
                      defaultTheme := entryName, currentTheme := entryName }
                    entryName with ⟨st3, r⟩
                rw [hp] at h
                cases r with
                | error elo => simp at h; rw [← h]; right; left; rfl
                | ok t =>
                    simp only [] at h
                    rcases ih st3 1 e h with ⟨h1, h2, h3⟩ | h1 | h1
                    · exact absurd h2 (by omega)
                    · right; left; exact h1
                    · right; right; exact h1
              · simp only [hone, Bool.false_eq_true, if_false] at h
                rcases ih _ (found + 1) e h with ⟨h1, h2, h3⟩ | h1 | h1
                · exact absurd h2 (by omega)
                · right; left; exact h1
                · right; right; exact h1
      · simp only [hdir, Bool.not_false, if_true] at h
        rcases ih st found e h with ⟨h1, h2, h3⟩ | h1 | h1
        · left
          refine ⟨h1, h2, ?_⟩
          rw [survivorNames_cons]
          have hnd : node.isDir = false := by simpa using hdir
          simp [hnd, h3]
        · right; left; exact h1
        · right; right; exact h1

/-- Helper: on success the multi-theme discovery loop registers exactly
the surviving candidates, appended in order after whatever was already in
the map. -/
theorem discoverLoop_success_names (fs : FSNode) (load : Loader) (basePath : List String) :
    ∀ (entries : List (String × FSNode)) (st : TMState) (found : Nat),
      (∀ p ∈ entries, alookup st.themes p.1 = none) →
      (entries.map Prod.fst).Nodup →
      (discoverLoop fs load basePath entries st found).2 = none →
      (discoverLoop fs load basePath entries st found).1.themes.map Prod.fst
        = st.themes.map Prod.fst ++ survivorNames fs basePath entries := by
  intro entries
  induction entries with
  | nil =>
      intro st found hab hnd h
      unfold discoverLoop at h ⊢
      by_cases hf : found = 0
      · simp [hf] at h
      · simp [hf, survivorNames]
  | cons hd rest ih =>
      intro st found hab hnd h
      rcases hd with ⟨entryName, node⟩
      have hndtail : (rest.map Prod.fst).Nodup := (List.nodup_cons.mp hnd).2
      have hnmem : entryName ∉ rest.map Prod.fst := (List.nodup_cons.mp hnd).1
      unfold discoverLoop at h ⊢
      by_cases hdir : node.isDir
      · simp only [hdir, Bool.not_true, Bool.false_eq_true, if_false] at h ⊢
        by_cases hval : (validateTheme fs (basePath ++ [entryName])).isSome
        · simp only [hval, if_true] at h ⊢
          rw [ih st found (fun p hp => hab p (List.mem_cons_of_mem _ hp)) hndtail h]
          rw [survivorNames_cons]
          have hvn : (validateTheme fs (basePath ++ [entryName])).isNone = false := by
            cases hv2 : validateTheme fs (basePath ++ [entryName]) with
            | none => rw [hv2] at hval; simp at hval
            | some e => rfl
          simp [hvn]
        · simp only [hval, Bool.false_eq_true, if_false] at h ⊢
          have hvn : (validateTheme fs (basePath ++ [entryName])).isNone = true := by
            cases hv2 : validateTheme fs (basePath ++ [entryName]) with
            | none => rfl
            | some e => rw [hv2] at hval; exact absurd rfl hval
          have habhd : alookup st.themes entryName = none :=
            hab (entryName, node) (List.mem_cons_self _ _)
          cases hmd : loadThemeMetadata fs (basePath ++ [entryName]) with
          | error emd => rw [hmd] at h; simp at h
          | ok md =>
              rw [hmd] at h
              simp only [] at h ⊢
              by_cases hone : found + 1 = 1
              · simp only [hone, if_true] at h ⊢
                rcases hp : loadTheme load
                    { themes := aset st.themes entryName
                        { name := entryName, path := basePath ++ [entryName],
                          isDefault := found = 0, isEmbedded := false, metadata := md },
                      currentTheme := entryName, defaultTheme := entryName,
                      render := st.render }
                    entryName with ⟨st3, r⟩
                rw [hp] at h
                cases r with
                | error elo => simp at h
                | ok t =>
                    have hth3 : st3.themes = st.themes ++
                        [(entryName,
                          { name := entryName, path := basePath ++ [entryName],
                            isDefault := found = 0, isEmbedded := false,
                            metadata := md : Theme })] := by
                      have := loadTheme_themes load
                        { themes := aset st.themes entryName
                            { name := entryName, path := basePath ++ [entryName],
                              isDefault := found = 0, isEmbedded := false, metadata := md },
                          currentTheme := entryName, defaultTheme := entryName,
                          render := st.render } entryName
                      rw [hp] at this
                      simp only [] at this
                      rw [this]
                      exact aset_append st.themes entryName _ habhd
                    have hab3 : ∀ p ∈ rest, alookup st3.themes p.1 = none := by
                      intro p hp2
                      rw [hth3]
                      refine alookup_append_none _ _ _ _
                        (hab p (List.mem_cons_of_mem _ hp2)) ?_
                      intro heq
                      exact hnmem (heq ▸ List.mem_map_of_mem Prod.fst hp2)
                    simp only [] at h ⊢
                    rw [ih st3 1 hab3 hndtail h]
                    rw [survivorNames_cons]
                    simp [hdir, hvn, hth3]
              · simp only [hone, Bool.false_eq_true, if_false] at h ⊢
                have hth1 : (aset st.themes entryName
                    { name := entryName, path := basePath ++ [entryName],
                      isDefault := found = 0, isEmbedded := false,
                      metadata := md : Theme }) = st.themes ++
                    [(entryName,
                      { name := entryName, path := basePath ++ [entryName],
                        isDefault := found = 0, isEmbedded := false,
                        metadata := md : Theme })] :=
                  aset_append st.themes entryName _ habhd
                have hab1 : ∀ p ∈ rest,
                    alookup (st.themes ++
                      [(entryName,
                        { name := entryName, path := basePath ++ [entryName],
                          isDefault := found = 0, isEmbedded := false,
                          metadata := md : Theme })]) p.1 = none := by
                  intro p hp2
                  refine alookup_append_none _ _ _ _
                    (hab p (List.mem_cons_of_mem _ hp2)) ?_
                  intro heq
                  exact hnmem (heq ▸ List.mem_map_of_mem Prod.fst hp2)
                rw [hth1] at h ⊢
                rw [ih _ (found + 1) hab1 hndtail h]
                rw [survivorNames_cons]
                simp [hdir, hvn]
      · simp only [hdir, Bool.not_false, if_true] at h ⊢
        rw [ih st found (fun p hp => hab p (List.mem_cons_of_mem _ hp)) hndtail h]
        rw [survivorNames_cons]
        have hnd2 : node.isDir = false := by simpa using hdir
        simp [hnd2]

/-- Helper: re-deriving the watch directory never changes the registry's
current theme (the internal `LoadTheme` only rebuilds the render). -/
theorem engineGetWatchDirectory_current (fs : FSNode) (load : Loader) (en : EngineState) :
    engineGetCurrentTheme (engineGetWatchDirectory fs load en).1 = engineGetCurrentTheme en := by
  unfold engineGetWatchDirectory engineGetCurrentTheme
  cases htm : en.tm with
  | none => simp [htm]
  | some tm =>
      by_cases hc : en.currentTheme = ""
      · simp [hc, htm]
      · simp only [hc, if_false, Bool.false_eq_true]
        rcases hp : loadTheme load tm en.currentTheme with ⟨tm1, r⟩
        have hcur := loadTheme_current load tm en.currentTheme
        rw [hp] at hcur
        simp only [] at hcur
        cases r with
        | ok theme =>
            by_cases hpth : (!theme.isEmbedded && !theme.path.isEmpty
                && dirExists fs theme.path) = true
            · simp [hpth, hcur]
            · simp only [Bool.not_eq_true] at hpth
              simp [hpth, hcur]
        | error e => simp [hcur]

/-- Helper: setting up watching never changes the registry's current
theme. -/
theorem engineSetupWatching_current (fs : FSNode) (load : Loader) (en : EngineState) :
    engineGetCurrentTheme (engineSetupWatching fs load en).1 = engineGetCurrentTheme en := by
  unfold engineSetupWatching
  rcases hp : engineGetWatchDirectory fs load en with ⟨en1, dir⟩
  have hthis := engineGetWatchDirectory_current fs load en
  rw [hp] at hthis
  simp only [] at hthis
  simp only []
  split <;> exact hthis

/-- Helper: recreating the watcher never changes the registry's current
theme. -/
theorem engineUpdateWatcher_current (fs : FSNode) (load : Loader) (en : EngineState) :
    engineGetCurrentTheme (engineUpdateWatcher fs load en).1 = engineGetCurrentTheme en := by
  unfold engineUpdateWatcher
  by_cases hw : en.hasWatcher
  · simp only [hw, Bool.not_true, Bool.false_eq_true, if_false]
    by_cases he : en.embedded
    · simp [he]
    · simp only [he, Bool.false_eq_true, if_false]
      have hset := engineSetupWatching_current fs load
        { templatesDir := en.templatesDir, embedded := false, hasWatcher := true,
          watchRoot := none, tm := en.tm, currentTheme := en.currentTheme,
          multiThemeMode := en.multiThemeMode, htmlRender := en.htmlRender }
      rw [hset]
      rfl
  · simp [hw]

/-- Helper: re-rooting the watcher for the new theme never changes the
registry's current theme. -/
theorem engineUpdateWatcherForTheme_current (fs : FSNode) (load : Loader) (en : EngineState) :
    engineGetCurrentTheme (engineUpdateWatcherForTheme fs load en).1
      = engineGetCurrentTheme en := by
  unfold engineUpdateWatcherForTheme
  by_cases hw : en.hasWatcher
  · simp only [hw, Bool.not_true, Bool.false_eq_true, if_false]
    by_cases he : en.embedded
    · simp [he]
    · simp only [he, Bool.false_eq_true, if_false]
      rcases hp : engineGetWatchDirectory fs load en with ⟨en1, dir⟩
      have hthis := engineGetWatchDirectory_current fs load en
      rw [hp] at hthis
      simp only [] at hthis
      simp only []
      split
      · exact hthis
      · rw [engineUpdateWatcher_current fs load en1]
        exact hthis
  · simp [hw]

/-- C1: Switch atomicity — whenever `SwitchTheme` returns an error (for
any reason: unknown name, load failure, or render validation failure),
the observable registry state afterwards (`GetCurrentTheme`,
`GetAvailableThemes`, and the active RenderSet returned by `GetRender`)
is identical to its value immediately before the call. -/
theorem c1_switch_atomicity (load : Loader) (st : TMState) (name : String)
    (h : (switchTheme load st name).2.isSome = true) :
    getCurrentTheme (switchTheme load st name).1 = getCurrentTheme st ∧
    getAvailableThemes (switchTheme load st name).1 = getAvailableThemes st ∧
    getRender (switchTheme load st name).1 = getRender st := by
  rw [switchTheme_fail_state load st name h]
  exact ⟨rfl, rfl, rfl⟩

/-- Witness for C1 at a concrete failing input (switch to an unknown
name). -/
theorem c1_switch_atomicity_witness :
    (switchTheme loaderNil registryAB "ghost").2.isSome = true ∧
    (getCurrentTheme (switchTheme loaderNil registryAB "ghost").1
        = getCurrentTheme registryAB ∧
      getAvailableThemes (switchTheme loaderNil registryAB "ghost").1
        = getAvailableThemes registryAB ∧
      getRender (switchTheme loaderNil registryAB "ghost").1 = getRender registryAB) :=
  ⟨by decide, c1_switch_atomicity loaderNil registryAB "ghost" (by decide)⟩

/-- C7: Switch idempotence — in a discovered registry (one whose current
theme name resolves in the themes map) `SwitchTheme(currentThemeName)` is
a successful no-op leaving the whole state unchanged, and invoking it
again is again a successful no-op. -/
theorem c7_switch_idempotent (load : Loader) (st : TMState)
    (h : themeExists st st.currentTheme = true) :
    switchTheme load st st.currentTheme = (st, none) ∧
    switchTheme load (switchTheme load st st.currentTheme).1 st.currentTheme
      = (st, none) := by
  have h1 : switchTheme load st st.currentTheme = (st, none) := by
    unfold switchTheme
    simp [h]
  refine ⟨h1, ?_⟩
  rw [h1]
  exact h1

/-- Witness for C7 at a concrete discovered registry. -/
theorem c7_switch_idempotent_witness :
    themeExists registryAB registryAB.currentTheme = true ∧
    (switchTheme loaderGood registryAB registryAB.currentTheme = (registryAB, none) ∧
      switchTheme loaderGood (switchTheme loaderGood registryAB registryAB.currentTheme).1
        registryAB.currentTheme = (registryAB, none)) :=
  ⟨by decide, c7_switch_idempotent loaderGood registryAB (by decide)⟩

/-- C9: Validation error shape — for every theme directory whose singles
subdirectory is missing, `ValidateTheme` reports a ThemeInvalid error
whose theme field equals the base name of the theme directory and whose
human-readable message is non-empty. -/
theorem c9_validation_error_shape (fs : FSNode) (themePath : List String)
    (h : dirExists fs (themePath ++ ["singles"]) = false) :
    themeInvalidShapeOk themePath (validateTheme fs themePath) := by
  have hstruct : ∃ msg, validateThemeStructure fs themePath = some msg := by
    unfold validateThemeStructure requiredDirs
    by_cases h1 : dirExists fs (themePath ++ ["layouts"])
    · by_cases h2 : dirExists fs (themePath ++ ["pages"])
      · exact ⟨"required directory not found: " ++ "singles",
          by simp [checkRequiredDirs, h1, h2, h]⟩
      · exact ⟨"required directory not found: " ++ "pages",
          by simp [checkRequiredDirs, h1, h2]⟩
    · exact ⟨"required directory not found: " ++ "layouts",
        by simp [checkRequiredDirs, h1]⟩
  rcases hstruct with ⟨msg, hmsg⟩
  unfold validateTheme
  rw [hmsg]
  exact ⟨rfl, rfl, by show "invalid theme structure" ≠ ""; decide⟩

/-- Witness for C9 at a concrete theme directory with layouts, pages and
errors but no singles. -/
theorem c9_validation_error_shape_witness :
    dirExists
      (FSNode.dir [("mytheme", FSNode.dir
        [("layouts", FSNode.dir [("layout.tmpl", sampleFile)]),
         ("pages", FSNode.dir [("home.tmpl", sampleFile)]),
         ("errors", FSNode.dir [("404.tmpl", sampleFile)])])])
      (["mytheme"] ++ ["singles"]) = false ∧
    themeInvalidShapeOk ["mytheme"]
      (validateTheme
        (FSNode.dir [("mytheme", FSNode.dir
          [("layouts", FSNode.dir [("layout.tmpl", sampleFile)]),
           ("pages", FSNode.dir [("home.tmpl", sampleFile)]),
           ("errors", FSNode.dir [("404.tmpl", sampleFile)])])])
        ["mytheme"]) :=
  ⟨by decide,
   c9_validation_error_shape
     (FSNode.dir [("mytheme", FSNode.dir
       [("layouts", FSNode.dir [("layout.tmpl", sampleFile)]),
        ("pages", FSNode.dir [("home.tmpl", sampleFile)]),
        ("errors", FSNode.dir [("404.tmpl", sampleFile)])])])
     ["mytheme"] (by decide)⟩

/-- C10: Execute on a missing key — for every render map, any key not
present in it, and any data value, `Render.Execute` returns a non-nil
error naming the key and writes nothing to the output stream; the
function is pure, so the render map itself is untouched. -/
theorem c10_execute_missing_key
    (exec : TmplRef → List String → JVal → List String × Option String)
    (r : Render) (name : String) (wr : List String) (data : JVal)
    (h : alookup r name = none) :
    renderExecute exec r name wr data
      = (wr, some ("template " ++ name ++ " not exists")) := by
  unfold renderExecute
  rw [h]

/-- Witness for C10 at a concrete render and missing key. -/
theorem c10_execute_missing_key_witness :
    alookup goodRender "missing" = none ∧
    renderExecute (fun _ w _ => (w, none)) goodRender "missing" ["chunk"] JVal.null
      = (["chunk"], some ("template " ++ "missing" ++ " not exists")) :=
  ⟨by decide,
   c10_execute_missing_key (fun _ w _ => (w, none)) goodRender "missing" ["chunk"]
     JVal.null (by decide)⟩

/-- Counterexample to C2 as stated: switching from a to b commits (returns
success and sets the current theme to b) although the newly loaded render
has no key of any page, single or error category — the category check of
`ValidateRenderIntegrity` is not applied during a switch. -/
theorem c2_switch_validation_counterexample :
    (switchTheme loaderMisc registryAB "b").2 = none ∧
    (switchTheme loaderMisc registryAB "b").1.currentTheme = "b" ∧
    (validateRenderIntegrity (switchTheme loaderMisc registryAB "b").1.render).isSome
      = true := by
  refine ⟨?_, ?_, ?_⟩ <;> decide

/-- C2 (amended): for every registered name distinct from the current
theme, `SwitchTheme` commits exactly when the loader produces a non-nil,
non-empty render containing at least one non-nil template (no category
check is applied); otherwise the pre-call snapshot is kept and a
ThemeSwitchFailed error is returned.  The result is characterized
exactly. -/
theorem c2_switch_validation_amended (load : Loader) (st : TMState) (name : String)
    (theme : Theme) (hlook : alookup st.themes name = some theme)
    (hcur : st.currentTheme ≠ name) :
    switchTheme load st name =
      (match load theme.path with
       | none =>
           (st, some { etype := ThemeErrorType.errThemeSwitchFailed, theme := name,
                       message := "failed to load new theme during switch",
                       cause := some "failed to load theme templates" })
       | some r =>
           if r.length = 0 then
             (st, some { etype := ThemeErrorType.errThemeSwitchFailed, theme := name,
                         message := "failed to load new theme during switch",
                         cause := some "failed to load theme templates" })
           else if r.any (fun kv => kv.2.isSome) then
             ({ st with currentTheme := name, render := some r }, none)
           else
             (st, some { etype := ThemeErrorType.errThemeSwitchFailed, theme := name,
                         message := "theme switch failed: invalid templates in new theme",
                         cause := some "render contains no valid templates" })) := by
  have hex : themeExists st name = true := by
    unfold themeExists
    rw [hlook]
    rfl
  unfold switchTheme
  simp only [hex, Bool.not_true, Bool.false_eq_true, if_false]
  have hcur2 : ¬ st.currentTheme = name := hcur
  simp only [hcur2, if_false]
  rw [loadTheme_spec load st name theme hlook]
  cases hl : load theme.path with
  | none => simp
  | some r =>
      by_cases hlen : r.length = 0
      · simp [hlen]
      · simp only [hlen, Bool.false_eq_true, if_false]
        by_cases hany : r.any (fun kv => kv.2.isSome) = true
        · rw [show validateRenderTemplates (some r) = none by
            unfold validateRenderTemplates
            simp [hlen, hany]]
          simp [hany]
        · simp only [Bool.not_eq_true] at hany
          rw [show validateRenderTemplates (some r)
              = some "render contains no valid templates" by
            unfold validateRenderTemplates
            simp [hlen, hany]]
          simp [hany]

/-- Witness for the amended C2 at a concrete committing switch. -/
theorem c2_switch_validation_amended_witness :
    (alookup registryAB.themes "b" = some themeB ∧ registryAB.currentTheme ≠ "b") ∧
    switchTheme loaderMisc registryAB "b" =
      (match loaderMisc themeB.path with
       | none =>
           (registryAB,
            some { etype := ThemeErrorType.errThemeSwitchFailed, theme := "b",
                   message := "failed to load new theme during switch",
                   cause := some "failed to load theme templates" })
       | some r =>
           if r.length = 0 then
             (registryAB,
              some { etype := ThemeErrorType.errThemeSwitchFailed, theme := "b",
                     message := "failed to load new theme during switch",
                     cause := some "failed to load theme templates" })
           else if r.any (fun kv => kv.2.isSome) then
             ({ registryAB with currentTheme := "b", render := some r }, none)
           else
             (registryAB,
              some { etype := ThemeErrorType.errThemeSwitchFailed, theme := "b",
                     message := "theme switch failed: invalid templates in new theme",
                     cause := some "render contains no valid templates" })) :=
  ⟨⟨rfl, by decide⟩,
   c2_switch_validation_amended loaderMisc registryAB "b" themeB rfl (by decide)⟩

/-- Counterexample to C3's validation clause as stated: a reload whose
loader produces a render holding only a nil template pointer succeeds,
while the switch-time validator `validateRenderTemplates` rejects that
very render — reload does not apply the same RenderSet validation as
switch. -/
theorem c3_reload_validation_counterexample :
    (reloadCurrentTheme loaderAllNil registryA).2 = none ∧
    (validateRenderTemplates (reloadCurrentTheme loaderAllNil registryA).1.render).isSome
      = true := by
  refine ⟨?_, ?_⟩ <;> decide

/-- C3 (amended): with a non-empty current theme name that resolves in
the themes map, `ReloadCurrentTheme` leaves the themes map, the current
theme name and the default theme name unchanged, leaves the active
RenderSet as exactly whatever the loader produced (also on failure — no
snapshot is restored), and applies only the loader-level validation
(render non-nil and non-empty), which is strictly weaker than the
switch-time validation. -/
theorem c3_reload_no_rollback_amended (load : Loader) (st : TMState) (theme : Theme)
    (h0 : st.currentTheme ≠ "") (hlook : alookup st.themes st.currentTheme = some theme) :
    reloadCurrentTheme load st =
      ({ st with render := load theme.path },
       match load theme.path with
       | none =>
           some { etype := ThemeErrorType.errThemeLoadFailed, theme := st.currentTheme,
                  message := "failed to load theme templates",
                  cause := some ("failed to create render for theme " ++ theme.name) }
       | some r =>
           if r.length = 0 then
             some { etype := ThemeErrorType.errThemeLoadFailed, theme := st.currentTheme,
                    message := "failed to load theme templates",
                    cause := some ("render contains no templates for theme " ++ theme.name) }
           else none) := by
  unfold reloadCurrentTheme
  simp only [h0, if_false]
  rw [loadTheme_spec load st st.currentTheme theme hlook]
  cases hl : load theme.path with
  | none => simp
  | some r =>
      by_cases hlen : r.length = 0
      · simp [hlen]
      · simp [hlen]

/-- Witness for the amended C3 at a concrete reload whose loader yields a
render that the switch-time validator would reject. -/
theorem c3_reload_no_rollback_amended_witness :
    (registryA.currentTheme ≠ "" ∧ alookup registryA.themes registryA.currentTheme
        = some themeA) ∧
    reloadCurrentTheme loaderAllNil registryA =
      ({ registryA with render := loaderAllNil themeA.path },
       match loaderAllNil themeA.path with
       | none =>
           some { etype := ThemeErrorType.errThemeLoadFailed,
                  theme := registryA.currentTheme,
                  message := "failed to load theme templates",
                  cause := some ("failed to create render for theme " ++ themeA.name) }
       | some r =>
           if r.length = 0 then
             some { etype := ThemeErrorType.errThemeLoadFailed,
                    theme := registryA.currentTheme,
                    message := "failed to load theme templates",
                    cause := some ("render contains no templates for theme " ++ themeA.name) }
           else none) :=
  ⟨⟨by decide, rfl⟩,
   c3_reload_no_rollback_amended loaderAllNil registryA themeA (by decide) rfl⟩

/-- C4: Mode detection — `detectModeFileSystem` classifies a root as
MultiTheme exactly when at least one child directory passes
`ValidateTheme`, and as Legacy in every other case (ModeAuto is never
produced).  In particular a root that itself carries a (non-empty) legacy
layout is Legacy precisely when no child validates, the multi-theme
classification taking precedence over a coexisting legacy-looking root,
and all remaining cases are Legacy. -/
theorem c4_mode_detection (fs : FSNode) (baseDir : List String) :
    ((detectModeFileSystem fs baseDir).1 = DiscoverMode.modeMultiTheme
      ↔ existsValidChildDir fs baseDir = true) ∧
    ((detectModeFileSystem fs baseDir).1 = DiscoverMode.modeMultiTheme
      ∨ (detectModeFileSystem fs baseDir).1 = DiscoverMode.modeLegacy) := by
  unfold detectModeFileSystem hasThemeSubdirectories existsValidChildDir
  cases hrd : readDir fs baseDir with
  | none => simp
  | some entries =>
      by_cases hb : entries.any
          (fun e => e.2.isDir && (validateTheme fs (baseDir ++ [e.1])).isNone) = true
      · by_cases hl : hasLegacyStructure fs baseDir = true
        · simp [hb, hl]
        · simp [hb, hl]
      · simp only [Bool.not_eq_true] at hb
        by_cases hl : hasLegacyStructure fs baseDir = true
        · simp [hb, hl]
        · simp only [Bool.not_eq_true] at hl
          simp [hb, hl]

/-- Counterexample to C5 as stated: in this multi-theme root both
children pass `ValidateTheme` and the first one is registered and its
RenderSet loaded successfully, yet `DiscoverThemes` returns an error —
the second candidate's theme.json passes config validation but fails to
unmarshal into the metadata struct, surfacing as ThemeConfigInvalid and
leaving that surviving candidate unregistered. -/
theorem c5_discovery_counterexample :
    (validateTheme fsMetaBad ["tpl", "alpha"]).isNone = true ∧
    (validateTheme fsMetaBad ["tpl", "beta"]).isNone = true ∧
    (discoverThemes fsMetaBad loaderAlpha ["tpl"] emptyRegistry).2
      = some { etype := ThemeErrorType.errThemeConfigInvalid, theme := "beta",
               message := "invalid theme.json format", cause := some "unmarshal error" } ∧
    (discoverThemes fsMetaBad loaderAlpha ["tpl"] emptyRegistry).1.themes.map Prod.fst
      = ["alpha"] ∧
    (discoverThemes fsMetaBad loaderAlpha ["tpl"] emptyRegistry).1.currentTheme
      = "alpha" := by
  refine ⟨?_, ?_, ?_, ?_, ?_⟩ <;> decide

/-- C5 (amended): in MultiTheme mode `DiscoverThemes` silently excludes
(without surfacing an error) every candidate failing `ValidateTheme`; on
success the registered names are exactly the surviving candidates; and
any returned error is ThemeNotFound (only with zero survivors),
ThemeLoadFailed (loading a theme during discovery), or ThemeConfigInvalid
(a surviving candidate's metadata failing to unmarshal, which also stops
registration of the remaining candidates). -/
theorem c5_discovery_amended (fs : FSNode) (load : Loader) (baseDir : List String)
    (st : TMState) (entries : List (String × FSNode))
    (hmode : detectModeFileSystem fs baseDir = (DiscoverMode.modeMultiTheme, none))
    (hrd : readDir fs baseDir = some entries)
    (hnodup : (entries.map Prod.fst).Nodup) :
    discoverySuccessNamesOk fs baseDir entries (discoverThemes fs load baseDir st) ∧
    discoveryErrorClassOk (survivorNames fs baseDir entries)
      (discoverThemes fs load baseDir st).2 := by
  unfold discoverThemes
  rw [hmode]
  simp only []
  unfold discoverMultipleThemes
  rw [hrd]
  simp only []
  have hnames := discoverLoop_success_names fs load baseDir entries
    { st with themes := [] } 0 (fun p hp => rfl) hnodup
  have hclass := discoverLoop_error_classes fs load baseDir entries
    { st with themes := [] } 0
  rcases hpr : discoverLoop fs load baseDir entries { st with themes := [] } 0 with ⟨st1, o⟩
  rw [hpr] at hnames hclass
  cases o with
  | none =>
      constructor
      · have hn := hnames rfl
        simp only [] at hn
        simp only [discoverySuccessNamesOk]
        simpa using hn
      · exact trivial
  | some e =>
      constructor
      · exact trivial
      · have hc := hclass e rfl
        show (e.etype = ThemeErrorType.errThemeNotFound
            ∧ survivorNames fs baseDir entries = [])
          ∨ e.etype = ThemeErrorType.errThemeLoadFailed
          ∨ e.etype = ThemeErrorType.errThemeConfigInvalid
        rcases hc with ⟨h1, _, h3⟩ | h1 | h1
        · exact Or.inl ⟨h1, h3⟩
        · exact Or.inr (Or.inl h1)
        · exact Or.inr (Or.inr h1)

/-- Witness for the amended C5 at a concrete two-theme root where
discovery succeeds and registers both survivors. -/
theorem c5_discovery_amended_witness :
    (detectModeFileSystem fsDark ["tpl"] = (DiscoverMode.modeMultiTheme, none) ∧
      readDir fsDark ["tpl"]
        = some [("dark", validThemeDir), ("darkish", validThemeDir)] ∧
      (([("dark", validThemeDir), ("darkish", validThemeDir)].map
          (Prod.fst (α := String) (β := FSNode)))).Nodup) ∧
    (discoverySuccessNamesOk fsDark ["tpl"]
        [("dark", validThemeDir), ("darkish", validThemeDir)]
        (discoverThemes fsDark loaderGood ["tpl"] emptyRegistry) ∧
      discoveryErrorClassOk
        (survivorNames fsDark ["tpl"] [("dark", validThemeDir), ("darkish", validThemeDir)])
        (discoverThemes fsDark loaderGood ["tpl"] emptyRegistry).2) :=
  ⟨⟨by decide, rfl, by decide⟩,
   c5_discovery_amended fsDark loaderGood ["tpl"] emptyRegistry
     [("dark", validThemeDir), ("darkish", validThemeDir)] (by decide) rfl (by decide)⟩

/-- C6 evaluated at the failing input: with active theme dark, whose watch
root is tpl/dark, a write event on a template file of the inactive
sibling theme darkish — a path that is not under the active root in path
terms — nevertheless triggers a reload, because engine.go classifies
events by a plain string-prefix comparison and the string tpl/dark is a
prefix of the string tpl/darkish/pages/x.tmpl.  This violates the watch
isolation the claim (and the spec's isolation invariant) states. -/
theorem c6_watch_isolation_bug :
    (engineGetWatchDirectory fsDark loaderGood engineDark).2 = ["tpl", "dark"] ∧
    List.isPrefixOf ["tpl", "dark"] ["tpl", "darkish", "pages", "x.tmpl"] = false ∧
    handleFileEventReload fsDark loaderGood engineDark
      { op := FileOp.write, name := ["tpl", "darkish", "pages", "x.tmpl"] } = true := by
  refine ⟨?_, ?_, ?_⟩ <;> decide

/-- C8: Facade asymmetry — whenever the registry-level switch succeeds,
the engine facade's SwitchTheme returns success and the engine's
GetCurrentTheme afterwards equals the requested name, for every
filesystem and loader; the watcher re-rooting outcome is computed and
discarded, so a re-rooting failure never rolls back or aborts the
already-committed switch. -/
theorem c8_facade_asymmetry (fs : FSNode) (load : Loader) (en : EngineState)
    (tm : TMState) (name : String) (htm : en.tm = some tm)
    (hok : (switchTheme load tm name).2 = none) :
    (engineSwitchTheme fs load en name).2 = none ∧
    engineGetCurrentTheme (engineSwitchTheme fs load en name).1 = name := by
  have hcurname := switchTheme_success_current load tm name hok
  unfold engineSwitchTheme
  rw [htm]
  simp only []
  have hfull : switchTheme load tm name = ((switchTheme load tm name).1, none) := by
    rw [← hok]
  rw [hfull]
  simp only []
  have hif : ∀ (b : Bool) (e2 : EngineState),
      engineGetCurrentTheme
        (if b = true then (engineUpdateWatcherForTheme fs load e2).1 else e2)
        = engineGetCurrentTheme e2 := by
    intro b e2
    cases b
    · simp
    · simp [engineUpdateWatcherForTheme_current]
  constructor
  · exact True.intro
  · rw [hif]
    cases hrend : (switchTheme load tm name).1.render with
    | some rr => exact hcurname
    | none => exact hcurname

/-- Witness for C8 at a concrete engine state whose registry-level switch
succeeds. -/
theorem c8_facade_asymmetry_witness :
    (engineDark.tm = some registryDark ∧
      (switchTheme loaderGood registryDark "dark").2 = none) ∧
    ((engineSwitchTheme fsDark loaderGood engineDark "dark").2 = none ∧
      engineGetCurrentTheme (engineSwitchTheme fsDark loaderGood engineDark "dark").1
        = "dark") :=
  ⟨⟨rfl, by decide⟩,
   c8_facade_asymmetry fsDark loaderGood engineDark registryDark "dark" rfl (by decide)⟩
